import Mathlib

/-!
Verification of the Moz API proxy handler (src/api/getMozData.js).

The development shallowly embeds the Vercel serverless handler as pure Lean
functions.  JavaScript values that flow through the handler (request body
fields, parameter bundles, upstream response bodies) are modelled by an
inductive `Json` type with an explicit `undefined` constructor for the JavaScript
`undefined` value produced by absent-property access.  Network effects are
modelled by oracles (fields of `World`): each oracle maps a fully built
upstream call to its settled response.  Because `Promise.allSettled` pairs the
i-th settled outcome with the i-th promise regardless of completion timing,
the aggregation step of the handler is embedded as a `List.map` of the
per-call settlement over the batch, which is order-independent by
construction.
-/

namespace MozProxy

/-- JavaScript values visible to the handler, including `undefined`. -/
inductive Json where
  | undefined : Json
  | null : Json
  | bool : Bool → Json
  | num : Int → Json
  | str : String → Json
  | arr : List Json → Json
  | obj : List (String × Json) → Json

/-- JavaScript truthiness of a value (NaN does not arise in the model). -/
def Json.truthy : Json → Bool
  | .undefined => false
  | .null => false
  | .bool b => b
  | .num n => n != 0
  | .str s => s != ""
  | .arr _ => true
  | .obj _ => true

/-- First binding of a key in an object field list. -/
def getField : List (String × Json) → String → Json
  | [], _ => .undefined
  | (k', v) :: rest, k => if k' = k then v else getField rest k

/-- Property access `v[k]`: `undefined` on non-objects and absent keys. -/
def Json.get : Json → String → Json
  | .obj fields, k => getField fields k
  | _, _ => .undefined

/-- Exact prefix test on character lists. -/
def prefixEq : List Char → List Char → Bool
  | [], _ => true
  | _ :: _, [] => false
  | p :: ps, c :: cs => c == p && prefixEq ps cs

/-- `s.startsWith(pre)` on strings. -/
def strStartsWith (s pre : String) : Bool :=
  prefixEq pre.data s.data

/-- Strict string comparison `m === s` for a JavaScript value against a
string literal, as used by the handler on `method` and `params.filter`. -/
def methodIs (m : Json) (s : String) : Bool :=
  match m with
  | .str t => t == s
  | _ => false

/-- String coercion of an array element for `Array.prototype.toString`
(`join(",")` renders `null` and `undefined` elements as empty; arrays nested
two levels deep are approximated by the empty string). -/
def jsElemToString : Json → String
  | .undefined => ""
  | .null => ""
  | .bool true => "true"
  | .bool false => "false"
  | .num n => toString n
  | .str s => s
  | .arr _ => ""
  | .obj _ => "[object Object]"

/-- JavaScript `String(v)` coercion, to the precision the handler needs. -/
def jsToString : Json → String
  | .undefined => "undefined"
  | .null => "null"
  | .bool true => "true"
  | .bool false => "false"
  | .num n => toString n
  | .str s => s
  | .arr l => String.intercalate "," (l.map jsElemToString)
  | .obj _ => "[object Object]"

/-- Decimal digits at the head of a character list, as a number. -/
def leadingNat : List Char → Option Nat :=
  go none
where
  go : Option Nat → List Char → Option Nat
    | acc, [] => acc
    | acc, c :: cs =>
      if c.isDigit then
        go (some ((acc.getD 0) * 10 + (c.toNat - '0'.toNat))) cs
      else acc

/-- Characters `parseInt` skips before the sign: ASCII whitespace. -/
def leadWs (c : Char) : Bool :=
  c = ' ' ∨ c = '\t' ∨ c = '\n' ∨ c = '\r' ∨ c = Char.ofNat 11 ∨ c = Char.ofNat 12

/-- `parseInt(s, 10)`: optional sign then leading decimal digits, `none` for NaN. -/
def parseIntStr (s : String) : Option Int :=
  match s.data.dropWhile leadWs with
  | '-' :: rest => (leadingNat rest).map (fun n => -(n : Int))
  | '+' :: rest => (leadingNat rest).map (fun n => (n : Int))
  | cs => (leadingNat cs).map (fun n => (n : Int))

/-- `parseInt(v, 10)` on a JavaScript value. -/
def parseIntJs (v : Json) : Option Int :=
  parseIntStr (jsToString v)

/-- The limit expression `Math.max(1, Math.min(cap, parseInt(v, 10) || 25))`.
`NaN || 25` and `0 || 25` both take the 25 branch (both are falsy). -/
def limitClamp (cap : Int) (v : Json) : Int :=
  let p : Int :=
    match parseIntJs v with
    | some n => if n = 0 then 25 else n
    | none => 25
  max 1 (min cap p)

/-- One fully built upstream Moz JSON-RPC call: the upstream method name, the
`params` value of the JSON-RPC envelope, and the forwarded credential.  The
envelope also carries `jsonrpc: "2.0"` and a freshly random `id`; the random
`id` does not influence the handler-visible outcome and is folded into the
oracle. -/
structure MozCall where
  apiMethod : String
  apiParams : Json
  apiKey : Json

/-- The settled upstream HTTP response for one Moz call: the `ok` flag, the
numeric status, and the body as parsed JSON (`none` when `response.json()`
raises a `SyntaxError`, e.g. for an HTML body). -/
structure MozResponse where
  ok : Bool
  status : Nat
  parsed : Option Json

/-- The fixed message `callMozApi` substitutes for an unparseable body. -/
def invalidResponseMessage : String :=
  "The Moz API returned an invalid response (likely HTML). It may be temporarily busy. Please try again shortly."

/-- `new Error(m).message` for the value `data.error.message`: the empty
string when the value is `undefined`, else its string coercion. -/
def errMessageOf : Json → String
  | .undefined => ""
  | v => jsToString v

/-- The engine `TypeError` message for the property access `data.error` when
`response.json()` resolved to the JSON literal null (line 365 under an ok
status, line 366 under a non-ok status).  This exception is not a
`SyntaxError`, so line 377 rethrows it and this text becomes the per-call
reason.  The wording is the V8 rendering used by current Node releases. -/
def nullPropertyErrorMessage : String :=
  "Cannot read properties of null (reading " ++ String.mk [Char.ofNat 39] ++
  "error" ++ String.mk [Char.ofNat 39] ++ ")"

/-- As `nullPropertyErrorMessage`, for a body resolving to `undefined`; no
JSON text parses to `undefined`, so this case is unreachable from
`response.json()` and is modelled only for totality of the classification. -/
def undefinedPropertyErrorMessage : String :=
  "Cannot read properties of undefined (reading " ++ String.mk [Char.ofNat 39] ++
  "error" ++ String.mk [Char.ofNat 39] ++ ")"

/-- The result classification of `callMozApi` (src/api/getMozData.js lines
349-379) as a function of the settled upstream response: an unparseable body
is replaced by the fixed invalid-response message; a parsed body that is the
literal null (or undefined) makes the `data.error` access throw a
`TypeError`, which is rethrown with the engine message; otherwise a falsy
`error` under a non-ok status falls back to the generic status message, a
truthy `error` yields its `message`, and on success the `result` field is
returned (property access on any other non-object yields `undefined`
without throwing). -/
def callMozApi (resp : MozResponse) : Except String Json :=
  match resp.parsed with
  | none => .error invalidResponseMessage
  | some Json.null => .error nullPropertyErrorMessage
  | some Json.undefined => .error undefinedPropertyErrorMessage
  | some data =>
    if resp.ok = false ∨ (data.get "error").truthy = true then
      .error
        (if (data.get "error").truthy = true then
          errMessageOf ((data.get "error").get "message")
        else "API returned status " ++ toString resp.status)
    else .ok (data.get "result")

/-- JavaScript `a || b` on values, as used for the `device`/`engine` defaults. -/
def jsOr (a b : Json) : Json :=
  if a.truthy then a else b

/-- The `metricMap` lookup with its `|| metricMap["all"]` fallback
(`"all"` and the fallback name the same upstream method). -/
def metricMapLookup : Json → String
  | .str "volume" => "data.keyword.metrics.volume.fetch"
  | .str "difficulty" => "data.keyword.metrics.difficulty.fetch"
  | .str "opportunity" => "data.keyword.metrics.opportunity.fetch"
  | .str "priority" => "data.keyword.metrics.priority.fetch"
  | _ => "data.keyword.metrics.fetch"

/-- Call built by the `siteMetrics` branch for one target. -/
def siteMetricsCall (params apiKey : Json) (target : Json) : MozCall :=
  ⟨"data.site.metrics.fetch",
   Json.obj [("data", Json.obj [("site_query",
     Json.obj [("query", target), ("scope", params.get "scope")])])], apiKey⟩

/-- Call built by the `keywordMetrics` branch for one keyword. -/
def keywordMetricsCall (params apiKey : Json) (keyword : Json) : MozCall :=
  ⟨metricMapLookup (params.get "metricType"),
   Json.obj [("data", Json.obj [("serp_query", Json.obj
     [("keyword", keyword), ("locale", params.get "locale"),
      ("device", jsOr (params.get "device") (Json.str "desktop")),
      ("engine", jsOr (params.get "engine") (Json.str "google"))])])], apiKey⟩

/-- The `brandAuthority` query rewriting: prepend the scheme when the target
does not already start with `http`. -/
def brandQuery (target : String) : String :=
  if strStartsWith target "http" then target else "https://" ++ target

/-- Call built by the `brandAuthority` branch for one (string) target. -/
def brandAuthorityCall (apiKey : Json) (target : String) : MozCall :=
  ⟨"data.site.metrics.brand.authority.fetch",
   Json.obj [("data", Json.obj [("site_query",
     Json.obj [("query", Json.str (brandQuery target)), ("scope", Json.str "domain")])])], apiKey⟩

/-- Call built by the `searchIntent` branch for one keyword. -/
def searchIntentCall (params apiKey : Json) (keyword : Json) : MozCall :=
  ⟨"data.keyword.search.intent.fetch",
   Json.obj [("data", Json.obj [("serp_query", Json.obj
     [("keyword", keyword), ("locale", params.get "locale"),
      ("device", Json.str "desktop"), ("engine", Json.str "google")])])], apiKey⟩

/-- Call built by the `rankingKeywords` branch for one target; the page limit
is the clamped caller limit with cap 500. -/
def rankingKeywordsCall (params apiKey : Json) (target : Json) : MozCall :=
  ⟨"data.site.ranking.keywords.list",
   Json.obj [("data", Json.obj
     [("target_query", Json.obj [("query", target), ("scope", params.get "scope"),
       ("locale", params.get "locale")]),
      ("page", Json.obj [("limit", Json.num (limitClamp 500 (params.get "limit")))])])], apiKey⟩

/-- Call built by the `relatedKeywords` branch for one keyword. -/
def relatedKeywordsCall (params apiKey : Json) (keyword : Json) : MozCall :=
  ⟨"data.keyword.suggestions.list",
   Json.obj [("data", Json.obj [("serp_query", Json.obj
     [("keyword", keyword), ("locale", params.get "locale"),
      ("device", Json.str "desktop"), ("engine", Json.str "google")])])], apiKey⟩

/-- Call built by the `keywordCount` branch for one target. -/
def keywordCountCall (params apiKey : Json) (target : Json) : MozCall :=
  ⟨"data.site.ranking-keyword.count",
   Json.obj [("data", Json.obj [("target_query", Json.obj
     [("query", target), ("scope", params.get "scope"),
      ("locale", params.get "locale")])])], apiKey⟩

/-- Call built by the `anchorText` branch for one target (limit cap 50). -/
def anchorTextCall (params apiKey : Json) (target : Json) : MozCall :=
  ⟨"data.site.anchor-text.list",
   Json.obj [("data", Json.obj
     [("site_query", Json.obj [("query", target), ("scope", params.get "scope")]),
      ("offset", Json.obj [("limit", Json.num (limitClamp 50 (params.get "limit")))])])], apiKey⟩

/-- The options object of `recentlyGainedLinks` and `recentlyLostLinks`:
`begin_date` and `end_date` are added only when the caller supplied them. -/
def dateOptions (params : Json) : Json :=
  Json.obj
    ((if (params.get "beginDate").truthy then [("begin_date", params.get "beginDate")] else []) ++
     (if (params.get "endDate").truthy then [("end_date", params.get "endDate")] else []))

/-- Call built by the `recentlyGainedLinks` branch for one target. -/
def recentlyGainedCall (params apiKey : Json) (target : Json) : MozCall :=
  ⟨"data.site.linking-domain.filter.recently-gained",
   Json.obj [("data", Json.obj
     [("site_query", Json.obj [("query", target), ("scope", params.get "scope")]),
      ("options", dateOptions params),
      ("offset", Json.obj [("limit", Json.num (limitClamp 50 (params.get "limit")))])])], apiKey⟩

/-- Call built by the `recentlyLostLinks` branch for one target. -/
def recentlyLostCall (params apiKey : Json) (target : Json) : MozCall :=
  ⟨"data.site.linking-domain.filter.recently-lost",
   Json.obj [("data", Json.obj
     [("site_query", Json.obj [("query", target), ("scope", params.get "scope")]),
      ("options", dateOptions params),
      ("offset", Json.obj [("limit", Json.num (limitClamp 50 (params.get "limit")))])])], apiKey⟩

/-- Call built by the `linkingDomains` branch for one target. -/
def linkingDomainsCall (params apiKey : Json) (target : Json) : MozCall :=
  ⟨"data.site.linking-domain.list",
   Json.obj [("data", Json.obj
     [("site_query", Json.obj [("query", target), ("scope", params.get "scope")]),
      ("options", Json.obj [("sort", params.get "sort"), ("filters", params.get "filters")]),
      ("offset", Json.obj [("limit", Json.num (limitClamp 50 (params.get "limit")))])])], apiKey⟩

/-- Call built by the `finalRedirect` branch for one target. -/
def finalRedirectCall (params apiKey : Json) (target : Json) : MozCall :=
  ⟨"data.site.redirect.fetch",
   Json.obj [("data", Json.obj [("site_query",
     Json.obj [("query", target), ("scope", params.get "scope")])])], apiKey⟩

/-- The options object of `topPages`: `filter` is added only when supplied
and different from the string `all`. -/
def topPagesOptions (params : Json) : Json :=
  Json.obj
    ([("sort", params.get "sort")] ++
     (if (params.get "filter").truthy && !(methodIs (params.get "filter") "all") then
       [("filter", params.get "filter")] else []))

/-- Call built by the `topPages` branch for one target. -/
def topPagesCall (params apiKey : Json) (target : Json) : MozCall :=
  ⟨"data.site.top-page.list",
   Json.obj [("data", Json.obj
     [("site_query", Json.obj [("query", target), ("scope", params.get "scope")]),
      ("options", topPagesOptions params),
      ("offset", Json.obj [("limit", Json.num (limitClamp 50 (params.get "limit")))])])], apiKey⟩

/-- Call built by the `listLinks` branch for one target. -/
def listLinksCall (params apiKey : Json) (target : Json) : MozCall :=
  ⟨"data.site.link.list",
   Json.obj [("data", Json.obj
     [("site_query", Json.obj [("query", target), ("scope", params.get "scope")]),
      ("options", Json.obj [("sort", params.get "sort"), ("filters", params.get "filters")]),
      ("offset", Json.obj [("limit", Json.num (limitClamp 50 (params.get "limit")))])])], apiKey⟩

/-- Call built by the `filterLinksByAnchor` branch for one target. -/
def filterAnchorCall (params apiKey : Json) (target : Json) : MozCall :=
  ⟨"data.site.link.filter.anchor.text",
   Json.obj [("data", Json.obj
     [("site_query", Json.obj [("query", target), ("scope", params.get "scope")]),
      ("anchor_text", params.get "anchorText"),
      ("options", Json.obj [("sort", params.get "sort"), ("filters", params.get "filters")]),
      ("offset", Json.obj [("limit", Json.num (limitClamp 50 (params.get "limit")))])])], apiKey⟩

/-- The single call of the `getQuota` branch. -/
def quotaCall (apiKey : Json) : MozCall :=
  ⟨"quota.lookup", Json.obj [("data", Json.obj [("path", Json.str "api.limits.data.rows")])], apiKey⟩

/-- The single call of the `linkIntersect` branch (limit cap 50). -/
def linkIntersectCall (params apiKey : Json) : MozCall :=
  ⟨"data.site.link.intersect.fetch",
   Json.obj [("data", Json.obj
     [("is_linking_to", params.get "is_linking_to"),
      ("not_linking_to", params.get "not_linking_to"),
      ("options", Json.obj
        [("minimum_matching_targets", params.get "minimum_matching_targets"),
         ("scope", params.get "scope"), ("sort", params.get "sort")]),
      ("offset", Json.obj [("limit", Json.num (limitClamp 50 (params.get "limit")))])])], apiKey⟩

/-- The single call of the `linkStatus` branch. -/
def linkStatusCall (params apiKey : Json) : MozCall :=
  ⟨"data.site.link.status.fetch",
   Json.obj [("data", Json.obj
     [("target_site_query", Json.obj
        [("query", params.get "targetQuery"), ("scope", params.get "targetScope")]),
      ("source_site_query", Json.obj
        [("query", params.get "sourceQuery"), ("scope", params.get "sourceScope")])])], apiKey⟩

/-- Call built by the `filterLinksByDomain` branch for one (target, source) pair. -/
def filterDomainCall (params apiKey : Json) (targetQuery sourceQuery : Json) : MozCall :=
  ⟨"data.site.link.filter.domain",
   Json.obj [("data", Json.obj
     [("site_query", Json.obj [("query", targetQuery), ("scope", params.get "targetScope")]),
      ("domain_site_query", Json.obj [("query", sourceQuery), ("scope", params.get "sourceScope")]),
      ("options", Json.obj [("filters", params.get "filters")]),
      ("offset", Json.obj [("limit", Json.num (limitClamp 50 (params.get "limit")))])])], apiKey⟩

/-! ## Text extraction pipeline of the `extractContent` branch

Each stage embeds one `String.replace` regex of lines 59-76 as a left-to-right
scanner.  The scanners that resume on a non-head suffix take a fuel argument
(initialised to the input length, which bounds the number of steps because
every step consumes at least one character); this keeps every definition
structurally recursive and hence evaluable inside the kernel. -/

/-- ASCII lowercasing of one character, for the `i` regex flag. -/
def lowerChar (c : Char) : Char :=
  if 'A' ≤ c ∧ c ≤ 'Z' then Char.ofNat (c.toNat + 32) else c

/-- Case-insensitive prefix test against an already lowercase pattern. -/
def matchesCI : List Char → List Char → Bool
  | [], _ => true
  | _ :: _, [] => false
  | p :: ps, c :: cs => lowerChar c == p && matchesCI ps cs

/-- Word characters of the regex `\b` boundary: `[A-Za-z0-9_]`. -/
def isWordChar (c : Char) : Bool :=
  ('a' ≤ c && c ≤ 'z') || ('A' ≤ c && c ≤ 'Z') || ('0' ≤ c && c ≤ '9') || c == '_'

/-- `\b` holds after a word character when the following text starts with a
non-word character or is empty. -/
def boundaryAt : List Char → Bool
  | [] => true
  | c :: _ => !isWordChar c

/-- The suffix following the first case-insensitive occurrence of `close`. -/
def cutClose (close : List Char) : List Char → Option (List Char)
  | [] => none
  | c :: cs => if matchesCI close (c :: cs) then some (List.drop (close.length - 1) cs) else cutClose close cs

/-- One block-removal regex `<tag\b[^<]*(?:(?!<\/tag>)<[^<]*)*<\/tag>` with
flags `gi`, replaced by the empty string: each match runs from an opening
`<tag` at a word boundary to the first following `</tag>`, inclusive. -/
def removeBlockAux (tag : List Char) : Nat → List Char → List Char
  | 0, l => l
  | _ + 1, [] => []
  | fuel + 1, c :: cs =>
    if matchesCI ('<' :: tag) (c :: cs) && boundaryAt (List.drop tag.length cs) then
      match cutClose ('<' :: '/' :: (tag ++ ['>'])) (List.drop tag.length cs) with
      | some suf => removeBlockAux tag fuel suf
      | none => c :: removeBlockAux tag fuel cs
    else c :: removeBlockAux tag fuel cs

/-- Global removal of `<tag ...>...</tag>` blocks. -/
def removeBlock (tag : String) (l : List Char) : List Char :=
  removeBlockAux tag.data l.length l

/-- The suffix following the first `>` character, if any. -/
def afterGt : List Char → Option (List Char)
  | [] => none
  | c :: cs => if c = '>' then some cs else afterGt cs

/-- The regex `<[^>]+>` with flag `g`, replaced by a space: a `<` followed by
at least one non-`>` character up to the first `>`. -/
def removeTagsAux : Nat → List Char → List Char
  | 0, l => l
  | _ + 1, [] => []
  | fuel + 1, c :: cs =>
    if c = '<' then
      match cs with
      | [] => [c]
      | c2 :: _ =>
        if c2 = '>' then c :: removeTagsAux fuel cs
        else
          match afterGt cs with
          | some rest => ' ' :: removeTagsAux fuel rest
          | none => c :: removeTagsAux fuel cs
    else c :: removeTagsAux fuel cs

/-- Global replacement of HTML tags by spaces. -/
def removeTags (l : List Char) : List Char :=
  removeTagsAux l.length l

/-- Global literal replacement (one `String.replace(/pat/g, rep)` with a
non-empty literal pattern). -/
def replaceSubAux (pat rep : List Char) : Nat → List Char → List Char
  | 0, l => l
  | _ + 1, [] => []
  | fuel + 1, c :: cs =>
    if prefixEq pat (c :: cs) then rep ++ replaceSubAux pat rep fuel (List.drop (pat.length - 1) cs)
    else c :: replaceSubAux pat rep fuel cs

/-- Global literal replacement, fuelled by the input length. -/
def replaceSub (pat rep : String) (l : List Char) : List Char :=
  replaceSubAux pat.data rep.data l.length l

/-- ASCII letters, for the entity regex with flag `i`. -/
def isAsciiLetter (c : Char) : Bool :=
  ('a' ≤ c && c ≤ 'z') || ('A' ≤ c && c ≤ 'Z')

/-- After `&` and one letter: remaining letters then `;`, returning the rest. -/
def entAfter : List Char → Option (List Char)
  | [] => none
  | c :: cs => if isAsciiLetter c then entAfter cs else if c = ';' then some cs else none

/-- After `&`: at least one letter then `;`, returning the rest. -/
def entLetters : List Char → Option (List Char)
  | [] => none
  | c :: cs => if isAsciiLetter c then entAfter cs else none

/-- The regex `&[a-z]+;` with flags `gi`, replaced by a space. -/
def removeEntitiesAux : Nat → List Char → List Char
  | 0, l => l
  | _ + 1, [] => []
  | fuel + 1, c :: cs =>
    if c = '&' then
      match entLetters cs with
      | some rest => ' ' :: removeEntitiesAux fuel rest
      | none => c :: removeEntitiesAux fuel cs
    else c :: removeEntitiesAux fuel cs

/-- Global replacement of residual named entities by spaces. -/
def removeEntities (l : List Char) : List Char :=
  removeEntitiesAux l.length l

/-- The whitespace class `\s` of JavaScript regexes (also the character set
trimmed by `String.prototype.trim`). -/
def jsWs (c : Char) : Bool :=
  c = ' ' || c = '\t' || c = '\n' || c = '\r' || c = Char.ofNat 11 || c = Char.ofNat 12 ||
  c = Char.ofNat 0xa0 || c = Char.ofNat 0x1680 ||
  (0x2000 ≤ c.toNat && c.toNat ≤ 0x200a) ||
  c = Char.ofNat 0x2028 || c = Char.ofNat 0x2029 || c = Char.ofNat 0x202f ||
  c = Char.ofNat 0x205f || c = Char.ofNat 0x3000 || c = Char.ofNat 0xfeff

/-- The regex `\s+` with flag `g`, replaced by a single space. -/
def collapseWsAux : Nat → List Char → List Char
  | 0, l => l
  | _ + 1, [] => []
  | fuel + 1, c :: cs =>
    if jsWs c then ' ' :: collapseWsAux fuel (cs.dropWhile jsWs)
    else c :: collapseWsAux fuel cs

/-- Whitespace-run collapsing, fuelled by the input length. -/
def collapseWs (l : List Char) : List Char :=
  collapseWsAux l.length l

/-- `String.prototype.trim`. -/
def trimWs (l : List Char) : List Char :=
  ((l.dropWhile jsWs).reverse.dropWhile jsWs).reverse

/-- The entity substitutions of lines 67-73, in source order, followed by the
generic entity removal. -/
def entitySteps (l : List Char) : List Char :=
  removeEntities
    (replaceSub "&#39;" (String.mk [Char.ofNat 39])
      (replaceSub "&quot;" "\""
        (replaceSub "&gt;" ">"
          (replaceSub "&lt;" "<"
            (replaceSub "&amp;" "&"
              (replaceSub "&nbsp;" " " l))))))

/-- The full cleaning pipeline of the `extractContent` branch (lines 56-76):
script, style and noscript blocks removed, tags replaced by spaces, entities
substituted, whitespace collapsed, the result trimmed and truncated to 8000
characters. -/
def extractText (html : String) : String :=
  String.mk
    (List.take 8000
      (trimWs
        (collapseWs
          (entitySteps
            (removeTags
              (removeBlock "noscript"
                (removeBlock "style"
                  (removeBlock "script" html.data))))))))

/-! ## The handler -/

/-- The settled result of the `fetch` of the `extractContent` branch: either
the promise rejected with a message, or a response with its `ok` flag,
status, status text and body text. -/
inductive PageResult where
  | reject : String → PageResult
  | resp : Bool → Nat → String → String → PageResult

/-- The settled result of an OpenAI `fetch`: either a rejection, or a
response with its `ok` flag and its body as parsed by `response.json()`
(`Except.error` carries the `SyntaxError` message of the engine). -/
inductive OpenAIResult where
  | reject : String → OpenAIResult
  | resp : Bool → Except String Json → OpenAIResult

/-- The environment of one request: oracles giving the settled outcome of
each outbound call.  `Promise.allSettled` pairs the i-th outcome with the
i-th promise, so making each settled outcome a function of the call alone is
exactly the guarantee that completion order cannot influence the response.
`typeErr` is the engine-dependent `TypeError` message raised by a property
access on `undefined` or `null` while destructuring an OpenAI response. -/
structure World where
  moz : MozCall → MozResponse
  page : Json → PageResult
  embed : Json → Json → OpenAIResult
  chat : Json → Json → OpenAIResult
  typeErr : String

/-- An HTTP response sent by the handler. -/
structure HttpResponse where
  status : Nat
  body : Json

/-- The inbound request: the HTTP verb and the destructured body fields
(`Json.undefined` models an absent field). -/
structure Request where
  httpMethod : String
  apiKey : Json
  method : Json
  params : Json
  openaiApiKey : Json

/-- A success record (status plus data) of the response envelope. -/
def successRecord (d : Json) : Json :=
  Json.obj [("status", Json.str "success"), ("data", d)]

/-- An error record (status plus reason) of the response envelope. -/
def errorRecord (m : String) : Json :=
  Json.obj [("status", Json.str "error"), ("reason", Json.str m)]

/-- The envelope record for one settled call: lines 330-336. -/
def settle (moz : MozCall → MozResponse) (c : MozCall) : Json :=
  match callMozApi (moz c) with
  | .ok d => successRecord d
  | .error m => errorRecord m

/-- An error-message response body. -/
def errBody (m : String) : Json :=
  Json.obj [("error", Json.str m)]

/-- `undefined` and `null`, the values whose property access throws. -/
def isNullish : Json → Bool
  | .null => true
  | .undefined => true
  | _ => false

/-- `v || fallback` rendered as an error message, for
`error.error?.message || '...'`. -/
def jsMsgOr (m : Json) (fb : String) : String :=
  if m.truthy then jsToString m else fb

/-- The string targets of the `brandAuthority` branch; `none` when some
element is not a string, in which case `target.startsWith` throws. -/
def allStrs : List Json → Option (List String)
  | [] => some []
  | .str s :: rest => (allStrs rest).map (fun l => s :: l)
  | _ :: _ => none

/-- Outcome of the multi-target `switch` (lines 196-327): a batch of calls,
the default 400 case, or a thrown `TypeError` (reaching the outer catch). -/
inductive SwitchOut where
  | batch : List MozCall → SwitchOut
  | invalid : SwitchOut
  | thrown : SwitchOut

/-- `params[key].map(f)`: a batch when the list is an array, a throw
otherwise. -/
def mapList (params : Json) (key : String) (f : Json → MozCall) : SwitchOut :=
  match params.get key with
  | .arr l => .batch (l.map f)
  | _ => .thrown

/-- The `switch (method)` of lines 196-327 building the batch of calls. -/
def mozSwitch (method params apiKey : Json) : SwitchOut :=
  if methodIs method "siteMetrics" then mapList params "targets" (siteMetricsCall params apiKey)
  else if methodIs method "keywordMetrics" then mapList params "keywords" (keywordMetricsCall params apiKey)
  else if methodIs method "brandAuthority" then
    match params.get "targets" with
    | .arr l =>
      match allStrs l with
      | some strs => .batch (strs.map (brandAuthorityCall apiKey))
      | none => .thrown
    | _ => .thrown
  else if methodIs method "searchIntent" then mapList params "keywords" (searchIntentCall params apiKey)
  else if methodIs method "rankingKeywords" then mapList params "targets" (rankingKeywordsCall params apiKey)
  else if methodIs method "relatedKeywords" then mapList params "keywords" (relatedKeywordsCall params apiKey)
  else if methodIs method "keywordCount" then mapList params "targets" (keywordCountCall params apiKey)
  else if methodIs method "anchorText" then mapList params "targets" (anchorTextCall params apiKey)
  else if methodIs method "recentlyGainedLinks" then mapList params "targets" (recentlyGainedCall params apiKey)
  else if methodIs method "recentlyLostLinks" then mapList params "targets" (recentlyLostCall params apiKey)
  else if methodIs method "linkingDomains" then mapList params "targets" (linkingDomainsCall params apiKey)
  else if methodIs method "finalRedirect" then mapList params "targets" (finalRedirectCall params apiKey)
  else if methodIs method "topPages" then mapList params "targets" (topPagesCall params apiKey)
  else if methodIs method "listLinks" then mapList params "targets" (listLinksCall params apiKey)
  else if methodIs method "filterLinksByAnchor" then mapList params "targets" (filterAnchorCall params apiKey)
  else .invalid

/-- The body of the `try` block (lines 37-338).  `Except.error ()` models an
exception reaching the outer catch. -/
def handlerTry (w : World) (r : Request) : Except Unit HttpResponse :=
  if methodIs r.method "extractContent" then
    if !(r.params.truthy && (r.params.get "url").truthy) then
      .ok ⟨400, errBody "Missing URL parameter."⟩
    else
      match w.page (r.params.get "url") with
      | .reject m => .ok ⟨500, errBody ("Failed to extract content: " ++ m)⟩
      | .resp ok status statusText text =>
        if ok = false then
          .ok ⟨500, errBody ("Failed to extract content: HTTP " ++ toString status ++ ": " ++ statusText)⟩
        else .ok ⟨200, Json.obj [("content", Json.str (extractText text))]⟩
  else if methodIs r.method "getEmbeddings" then
    if !(r.params.truthy && (r.params.get "text").truthy) then
      .ok ⟨400, errBody "Missing text parameter."⟩
    else
      match w.embed r.openaiApiKey (r.params.get "text") with
      | .reject m => .ok ⟨500, errBody ("Failed to get embeddings: " ++ m)⟩
      | .resp ok body =>
        match body with
        | .error pm => .ok ⟨500, errBody ("Failed to get embeddings: " ++ pm)⟩
        | .ok data =>
          if ok = false then
            .ok ⟨500, errBody ("Failed to get embeddings: " ++
              jsMsgOr ((data.get "error").get "message") "Failed to get embeddings")⟩
          else
            match data.get "data" with
            | .arr (e :: _) =>
              if isNullish e then .ok ⟨500, errBody ("Failed to get embeddings: " ++ w.typeErr)⟩
              else .ok ⟨200, Json.obj [("embedding", e.get "embedding")]⟩
            | _ => .ok ⟨500, errBody ("Failed to get embeddings: " ++ w.typeErr)⟩
  else if methodIs r.method "analyzeWithOpenAI" then
    if !(r.params.truthy && (r.params.get "analysisData").truthy) then
      .ok ⟨400, errBody "Missing analysisData parameter."⟩
    else
      match w.chat r.openaiApiKey (r.params.get "analysisData") with
      | .reject m => .ok ⟨500, errBody ("Failed to analyze with OpenAI: " ++ m)⟩
      | .resp ok body =>
        match body with
        | .error pm => .ok ⟨500, errBody ("Failed to analyze with OpenAI: " ++ pm)⟩
        | .ok data =>
          if ok = false then
            .ok ⟨500, errBody ("Failed to analyze with OpenAI: " ++
              jsMsgOr ((data.get "error").get "message") "Failed to analyze with OpenAI")⟩
          else
            match data.get "choices" with
            | .arr (e :: _) =>
              if isNullish e || isNullish (e.get "message") then
                .ok ⟨500, errBody ("Failed to analyze with OpenAI: " ++ w.typeErr)⟩
              else .ok ⟨200, Json.obj [("analysis", (e.get "message").get "content")]⟩
            | _ => .ok ⟨500, errBody ("Failed to analyze with OpenAI: " ++ w.typeErr)⟩
  else if methodIs r.method "getQuota" then
    match callMozApi (w.moz (quotaCall r.apiKey)) with
    | .ok d => .ok ⟨200, Json.obj [("quota", d)]⟩
    | .error _ => .error ()
  else if methodIs r.method "linkIntersect" then
    match callMozApi (w.moz (linkIntersectCall r.params r.apiKey)) with
    | .ok d => .ok ⟨200, Json.arr [successRecord d]⟩
    | .error _ => .error ()
  else if methodIs r.method "linkStatus" then
    match callMozApi (w.moz (linkStatusCall r.params r.apiKey)) with
    | .ok d => .ok ⟨200, Json.arr [successRecord d]⟩
    | .error _ => .error ()
  else if methodIs r.method "filterLinksByDomain" then
    match r.params.get "targetQueries" with
    | .arr [] => .ok ⟨200, Json.arr []⟩
    | .arr ts =>
      match r.params.get "sourceQueries" with
      | .arr ss =>
        .ok ⟨200, Json.arr (ts.flatMap (fun t => ss.map (fun s =>
          settle w.moz (filterDomainCall r.params r.apiKey t s))))⟩
      | _ => .error ()
    | _ => .error ()
  else
    match mozSwitch r.method r.params r.apiKey with
    | .batch calls => .ok ⟨200, Json.arr (calls.map (settle w.moz))⟩
    | .invalid => .ok ⟨400, errBody "Invalid API method specified."⟩
    | .thrown => .error ()

/-- The generic 500 response of the outer catch (lines 340-343). -/
def genericError : HttpResponse :=
  ⟨500, errBody "An internal server error occurred."⟩

/-- The full handler (src/api/getMozData.js lines 6-344): the OPTIONS
preflight short-circuit, the three validation gates, and the guarded body. -/
def handler (w : World) (r : Request) : HttpResponse :=
  if r.httpMethod == "OPTIONS" then ⟨200, Json.null⟩
  else if (!(methodIs r.method "extractContent") && !(methodIs r.method "getEmbeddings") &&
           !(methodIs r.method "analyzeWithOpenAI")) &&
          (!(r.apiKey.truthy) || !(r.method.truthy)) then
    ⟨400, errBody "Missing API Key or method."⟩
  else if (!(methodIs r.method "extractContent") && !(methodIs r.method "getEmbeddings") &&
           !(methodIs r.method "analyzeWithOpenAI")) &&
          (!(methodIs r.method "getQuota") && !(r.params.truthy)) then
    ⟨400, errBody "Missing parameters for this method."⟩
  else if (methodIs r.method "getEmbeddings" || methodIs r.method "analyzeWithOpenAI") &&
          !(r.openaiApiKey.truthy) then
    ⟨400, errBody "Missing OpenAI API Key."⟩
  else
    match handlerTry w r with
    | .ok resp => resp
    | .error _ => genericError

/-- The list-based multi-target methods: each issues one upstream call per
element of its list parameter (`brandAuthority` also loops but additionally
rewrites its targets and is treated separately). -/
def listMethods : List String :=
  ["siteMetrics", "keywordMetrics", "searchIntent", "rankingKeywords", "relatedKeywords",
   "keywordCount", "anchorText", "recentlyGainedLinks", "recentlyLostLinks",
   "linkingDomains", "finalRedirect", "topPages", "listLinks", "filterLinksByAnchor"]

/-- The name of the list parameter a list-based method loops over. -/
def listParamName (m : String) : String :=
  if m = "keywordMetrics" ∨ m = "searchIntent" ∨ m = "relatedKeywords" then "keywords"
  else "targets"

/-- The call a list-based method builds from one list element. -/
def listCall (m : String) (params apiKey : Json) (elem : Json) : MozCall :=
  if m = "siteMetrics" then siteMetricsCall params apiKey elem
  else if m = "keywordMetrics" then keywordMetricsCall params apiKey elem
  else if m = "searchIntent" then searchIntentCall params apiKey elem
  else if m = "rankingKeywords" then rankingKeywordsCall params apiKey elem
  else if m = "relatedKeywords" then relatedKeywordsCall params apiKey elem
  else if m = "keywordCount" then keywordCountCall params apiKey elem
  else if m = "anchorText" then anchorTextCall params apiKey elem
  else if m = "recentlyGainedLinks" then recentlyGainedCall params apiKey elem
  else if m = "recentlyLostLinks" then recentlyLostCall params apiKey elem
  else if m = "linkingDomains" then linkingDomainsCall params apiKey elem
  else if m = "finalRedirect" then finalRedirectCall params apiKey elem
  else if m = "topPages" then topPagesCall params apiKey elem
  else if m = "listLinks" then listLinksCall params apiKey elem
  else filterAnchorCall params apiKey elem

/-- Whether a JSON value is an array. -/
def Json.isArr : Json → Bool
  | .arr _ => true
  | _ => false

/-! ## Concrete environments used to instantiate the theorems -/

/-- An environment in which every upstream call succeeds with `result = 1`. -/
def okWorld : World where
  moz := fun _ => ⟨true, 200, some (Json.obj [("result", Json.num 1)])⟩
  page := fun _ => .resp true 200 "OK" ""
  embed := fun _ _ => .resp true (.ok Json.null)
  chat := fun _ _ => .resp true (.ok Json.null)
  typeErr := "Cannot read properties of undefined"

/-- An environment in which every upstream Moz call fails with a structured
error message `boom` under status 503. -/
def failWorld : World where
  moz := fun _ => ⟨false, 503, some (Json.obj [("error", Json.obj [("message", Json.str "boom")])])⟩
  page := fun _ => .resp true 200 "OK" ""
  embed := fun _ _ => .resp true (.ok Json.null)
  chat := fun _ _ => .resp true (.ok Json.null)
  typeErr := "Cannot read properties of undefined"

/-- An environment in which the call whose `site_query.query` is the string
`bad` fails with message `boom` and every other call succeeds. -/
def mixedWorld : World where
  moz := fun c =>
    if methodIs (((c.apiParams.get "data").get "site_query").get "query") "bad" then
      ⟨false, 500, some (Json.obj [("error", Json.obj [("message", Json.str "boom")])])⟩
    else ⟨true, 200, some (Json.obj [("result", Json.num 1)])⟩
  page := fun _ => .resp true 200 "OK" ""
  embed := fun _ _ => .resp true (.ok Json.null)
  chat := fun _ _ => .resp true (.ok Json.null)
  typeErr := "Cannot read properties of undefined"

/-- An environment in which every upstream Moz call succeeds and echoes back
the `site_query.query` of its payload as the result. -/
def echoWorld : World where
  moz := fun c =>
    ⟨true, 200, some (Json.obj [("result", ((c.apiParams.get "data").get "site_query").get "query")])⟩
  page := fun _ => .resp true 200 "OK" ""
  embed := fun _ _ => .resp true (.ok Json.null)
  chat := fun _ _ => .resp true (.ok Json.null)
  typeErr := "Cannot read properties of undefined"

/-- An environment serving one fixed HTML page for every URL. -/
def pageWorld (html : String) : World where
  moz := fun _ => ⟨true, 200, some (Json.obj [("result", Json.num 1)])⟩
  page := fun _ => .resp true 200 "OK" html
  embed := fun _ _ => .resp true (.ok Json.null)
  chat := fun _ _ => .resp true (.ok Json.null)
  typeErr := "Cannot read properties of undefined"

/-! ## Concrete request data used to instantiate the theorems -/

/-- A `siteMetrics`-style parameter bundle with two targets. -/
def paramsTwoTargets : Json :=
  Json.obj [("targets", Json.arr [Json.str "a.com", Json.str "b.com"]), ("scope", Json.str "domain")]

/-- A parameter bundle whose second target is the string `bad` (the target
`mixedWorld` fails). -/
def paramsGoodBad : Json :=
  Json.obj [("targets", Json.arr [Json.str "good.com", Json.str "bad"]), ("scope", Json.str "domain")]

/-- A `linkStatus` parameter bundle. -/
def paramsLinkStatus : Json :=
  Json.obj [("targetQuery", Json.str "a.com"), ("targetScope", Json.str "domain"),
            ("sourceQuery", Json.str "b.com"), ("sourceScope", Json.str "domain")]

/-- A `linkIntersect` parameter bundle. -/
def paramsLinkIntersect : Json :=
  Json.obj [("is_linking_to", Json.arr [Json.str "a.com"]),
            ("not_linking_to", Json.arr [Json.str "b.com"]), ("limit", Json.num 10)]

/-- A `brandAuthority` parameter bundle: one bare domain, one http URL. -/
def paramsBrand : Json :=
  Json.obj [("targets", Json.arr [Json.str "example.com", Json.str "http://x.y"])]

/-- A `filterLinksByDomain` parameter bundle with two targets and one source. -/
def paramsFilterDomain : Json :=
  Json.obj [("targetQueries", Json.arr [Json.str "t1", Json.str "t2"]),
            ("sourceQueries", Json.arr [Json.str "s1"]),
            ("targetScope", Json.str "domain"), ("sourceScope", Json.str "domain")]

/-- An `extractContent` parameter bundle. -/
def paramsUrl : Json :=
  Json.obj [("url", Json.str "http://page.example")]

/-- A small HTML page exercising every stage of the cleaning pipeline. -/
def sampleHtml : String :=
  "<html><script>var x = 1;</script><p>Hi &amp; low</p> <b>deal&nbsp;done</b></html>"

/-- The closed table of method strings the handler recognizes. -/
def recognizedNames : List String :=
  ["extractContent", "getEmbeddings", "analyzeWithOpenAI", "getQuota", "linkIntersect",
   "linkStatus", "filterLinksByDomain", "siteMetrics", "keywordMetrics", "brandAuthority",
   "searchIntent", "rankingKeywords", "relatedKeywords", "keywordCount", "anchorText",
   "recentlyGainedLinks", "recentlyLostLinks", "linkingDomains", "finalRedirect",
   "topPages", "listLinks", "filterLinksByAnchor"]

/-- The recognized methods that require `params` (all but the no-params
method `getQuota`). -/
def paramsRequired : List String :=
  ["extractContent", "getEmbeddings", "analyzeWithOpenAI", "linkIntersect",
   "linkStatus", "filterLinksByDomain", "siteMetrics", "keywordMetrics", "brandAuthority",
   "searchIntent", "rankingKeywords", "relatedKeywords", "keywordCount", "anchorText",
   "recentlyGainedLinks", "recentlyLostLinks", "linkingDomains", "finalRedirect",
   "topPages", "listLinks", "filterLinksByAnchor"]

/-! ## Shared helper lemmas -/

theorem truthy_undefined : Json.undefined.truthy = false := rfl

theorem truthy_str (s : String) : (Json.str s).truthy = (s != "") := rfl

/-- The handler response for a list-based method whose list parameter is an
array: status 200 and one settled record per element, in order. -/
theorem listBased_handler_eq (m : String) (hm : m ∈ listMethods) (w : World)
    (apiKey params okey : Json) (l : List Json)
    (hk : apiKey.truthy = true) (hp : params.truthy = true)
    (hl : params.get (listParamName m) = Json.arr l) :
    handler w ⟨"POST", apiKey, Json.str m, params, okey⟩ =
      ⟨200, Json.arr (l.map (fun e => settle w.moz (listCall m params apiKey e)))⟩ := by
  have hmt : (Json.str m).truthy = true := by fin_cases hm <;> rfl
  fin_cases hm <;>
    simp_all [handler, handlerTry, mozSwitch, mapList, methodIs, listCall, listParamName,
      Function.comp]

/-! ## Claim theorems -/

/-- C1: for every well-formed list-based request (one of the fourteen
multi-target methods) whose list parameter has N elements, the handler
responds 200 with a JSON array of exactly N outcome records, the i-th record
being the settled outcome of the upstream call built from the i-th list
element.  The oracle maps each call to its settled outcome, so the response
is independent of completion order by construction. -/
theorem listBased_envelope (m : String) (hm : m ∈ listMethods) (w : World)
    (apiKey params okey : Json) (l : List Json)
    (hk : apiKey.truthy = true) (hp : params.truthy = true)
    (hl : params.get (listParamName m) = Json.arr l) :
    handler w ⟨"POST", apiKey, Json.str m, params, okey⟩ =
      ⟨200, Json.arr (l.map (fun e => settle w.moz (listCall m params apiKey e)))⟩ ∧
    (l.map (fun e => settle w.moz (listCall m params apiKey e))).length = l.length :=
  ⟨listBased_handler_eq m hm w apiKey params okey l hk hp hl, by simp⟩

theorem listBased_envelope_witness :
    handler okWorld ⟨"POST", Json.str "k", Json.str "siteMetrics", paramsTwoTargets, Json.undefined⟩ =
      ⟨200, Json.arr [successRecord (Json.num 1), successRecord (Json.num 1)]⟩ :=
  ((listBased_envelope "siteMetrics" (by decide) okWorld (Json.str "k") paramsTwoTargets Json.undefined
    [Json.str "a.com", Json.str "b.com"] rfl rfl rfl).1).trans (by rfl)

/-- C2: a list-based batch containing both a successfully settling call and a
failing call still yields a 200 array with the success record and the error
record at their original input positions; no sibling result is dropped. -/
theorem mixed_outcomes_isolated (m : String) (hm : m ∈ listMethods) (w : World)
    (apiKey params okey d : Json) (msg : String) (l : List Json) (i j : Nat)
    (hk : apiKey.truthy = true) (hp : params.truthy = true)
    (hl : params.get (listParamName m) = Json.arr l)
    (hi : i < l.length) (hj : j < l.length)
    (hs : callMozApi (w.moz (listCall m params apiKey (l.get ⟨i, hi⟩))) = Except.ok d)
    (hf : callMozApi (w.moz (listCall m params apiKey (l.get ⟨j, hj⟩))) = Except.error msg) :
    handler w ⟨"POST", apiKey, Json.str m, params, okey⟩ =
      ⟨200, Json.arr (l.map (fun e => settle w.moz (listCall m params apiKey e)))⟩ ∧
    (l.map (fun e => settle w.moz (listCall m params apiKey e))).length = l.length ∧
    (∀ hi' : i < (l.map (fun e => settle w.moz (listCall m params apiKey e))).length,
      (l.map (fun e => settle w.moz (listCall m params apiKey e))).get ⟨i, hi'⟩ = successRecord d) ∧
    (∀ hj' : j < (l.map (fun e => settle w.moz (listCall m params apiKey e))).length,
      (l.map (fun e => settle w.moz (listCall m params apiKey e))).get ⟨j, hj'⟩ = errorRecord msg) := by
  refine ⟨listBased_handler_eq m hm w apiKey params okey l hk hp hl, by simp, ?_, ?_⟩
  · intro hi'
    simp only [List.get_eq_getElem, List.getElem_map]
    simp only [List.get_eq_getElem] at hs
    simp [settle, hs]
  · intro hj'
    simp only [List.get_eq_getElem, List.getElem_map]
    simp only [List.get_eq_getElem] at hf
    simp [settle, hf]

theorem mixed_outcomes_isolated_witness :
    handler mixedWorld ⟨"POST", Json.str "k", Json.str "siteMetrics", paramsGoodBad, Json.undefined⟩ =
      ⟨200, Json.arr [successRecord (Json.num 1), errorRecord "boom"]⟩ :=
  ((mixed_outcomes_isolated "siteMetrics" (by decide) mixedWorld (Json.str "k") paramsGoodBad
    Json.undefined (Json.num 1) "boom" [Json.str "good.com", Json.str "bad"] 0 1
    rfl rfl rfl (by decide) (by decide) rfl rfl).1).trans (by rfl)

/-- C3 counterexample: a non-ok upstream response whose body is the valid
JSON literal null carries no structured error message, yet its per-call
reason is the rethrown engine `TypeError` message and not the claimed
`API returned status N` fallback. -/
theorem nullBody_typeError_counterexample :
    callMozApi ⟨false, 503, some Json.null⟩ = Except.error nullPropertyErrorMessage ∧
    nullPropertyErrorMessage ≠ "API returned status " ++ toString 503 ∧
    (Json.null.get "error").truthy = false :=
  ⟨rfl, by decide, rfl⟩

/-- C3 amended: a body that does not parse as JSON (any status) yields a
Failure with the fixed invalid-response message, which differs from the
`API returned status N` fallback for every N; a parsed body carrying a
truthy `error` object yields the `message` string of that object; a parsed
body that is not the literal null and has no truthy error falls back to
`API returned status N` under a non-ok status; a parsed body that is the
literal null instead makes the `data.error` access throw a `TypeError`,
whose rethrown engine message (distinct from both the invalid-response
message and every status fallback) becomes the per-call reason. -/
theorem callMozApi_classification :
    (∀ (ok : Bool) (status : Nat),
      callMozApi ⟨ok, status, none⟩ = Except.error invalidResponseMessage) ∧
    (∀ status : Nat, invalidResponseMessage ≠ "API returned status " ++ toString status) ∧
    (∀ (ok : Bool) (status : Nat) (data : Json) (msg : String),
      (data.get "error").truthy = true →
      (data.get "error").get "message" = Json.str msg →
      callMozApi ⟨ok, status, some data⟩ = Except.error msg) ∧
    (∀ (status : Nat) (data : Json),
      isNullish data = false →
      (data.get "error").truthy = false →
      callMozApi ⟨false, status, some data⟩ =
        Except.error ("API returned status " ++ toString status)) ∧
    (∀ (ok : Bool) (status : Nat),
      callMozApi ⟨ok, status, some Json.null⟩ = Except.error nullPropertyErrorMessage) ∧
    (∀ status : Nat, nullPropertyErrorMessage ≠ "API returned status " ++ toString status) ∧
    nullPropertyErrorMessage ≠ invalidResponseMessage := by
  refine ⟨fun ok status => rfl, ?_, ?_, ?_, fun ok status => rfl, ?_, by decide⟩
  · intro status h
    have hh : invalidResponseMessage.data.head? = some 'T' := rfl
    have hh2 : ("API returned status " ++ toString status).data.head? = some 'A' := rfl
    rw [h, hh2] at hh
    simp at hh
  · intro ok status data msg h1 h2
    cases data <;> simp_all [callMozApi, Json.get, Json.truthy, errMessageOf, jsToString]
  · intro status data hnn h
    cases data <;> simp_all [callMozApi, isNullish, Json.get, Json.truthy]
  · intro status h
    have hh : nullPropertyErrorMessage.data.head? = some 'C' := rfl
    have hh2 : ("API returned status " ++ toString status).data.head? = some 'A' := rfl
    rw [h, hh2] at hh
    simp at hh

theorem callMozApi_classification_witness :
    callMozApi ⟨true, 200, none⟩ = Except.error invalidResponseMessage ∧
    callMozApi ⟨false, 404, some (Json.obj [("error", Json.obj [("message", Json.str "gone")])])⟩ =
      Except.error "gone" ∧
    callMozApi ⟨false, 502, some (Json.obj [])⟩ = Except.error ("API returned status " ++ toString 502) ∧
    callMozApi ⟨true, 200, some Json.null⟩ = Except.error nullPropertyErrorMessage :=
  ⟨callMozApi_classification.1 true 200,
   callMozApi_classification.2.2.1 false 404
     (Json.obj [("error", Json.obj [("message", Json.str "gone")])]) "gone" rfl rfl,
   callMozApi_classification.2.2.2.1 502 (Json.obj []) rfl rfl,
   callMozApi_classification.2.2.2.2.1 true 200⟩

/-- C4: the limit embedded in the upstream payload is the integer parse of
the caller input with fallback 25, clamped into the method range: [1,500]
for `rankingKeywords` and [1,50] for the other limit-carrying methods, so
the sent limit always lies in the range; non-numeric input falls back to 25
and an oversized value is cut to the cap. -/
theorem limit_clamped :
    (∀ (cap : Int) (v : Json), 1 ≤ cap → 1 ≤ limitClamp cap v ∧ limitClamp cap v ≤ cap) ∧
    limitClamp 50 (Json.str "abc") = 25 ∧
    limitClamp 50 (Json.num 0) = 25 ∧
    limitClamp 50 (Json.num 9999) = 50 ∧
    limitClamp 500 (Json.num 9999) = 500 ∧
    limitClamp 50 (Json.str "7") = 7 ∧
    limitClamp 50 (Json.num (-3)) = 1 ∧
    (∀ params apiKey target : Json,
      (((rankingKeywordsCall params apiKey target).apiParams.get "data").get "page").get "limit" =
        Json.num (limitClamp 500 (params.get "limit"))) ∧
    (∀ params apiKey : Json,
      (((linkIntersectCall params apiKey).apiParams.get "data").get "offset").get "limit" =
        Json.num (limitClamp 50 (params.get "limit"))) := by
  refine ⟨?_, rfl, rfl, rfl, rfl, rfl, rfl, fun params apiKey target => rfl, fun params apiKey => rfl⟩
  intro cap v hcap
  unfold limitClamp
  exact ⟨le_max_left 1 _, max_le hcap (min_le_left _ _)⟩

theorem limit_clamped_witness :
    1 ≤ limitClamp 50 (Json.num 0) ∧ limitClamp 50 (Json.num 0) ≤ 50 :=
  limit_clamped.1 50 (Json.num 0) (by norm_num)

/-- C5 counterexample: a successful `getQuota` request responds 200 with the
quota object, not a one-element outcome array in the batch shape. -/
theorem getQuota_object_counterexample :
    handler okWorld ⟨"POST", Json.str "k", Json.str "getQuota", Json.undefined, Json.undefined⟩ =
      ⟨200, Json.obj [("quota", Json.num 1)]⟩ ∧
    Json.isArr (handler okWorld
      ⟨"POST", Json.str "k", Json.str "getQuota", Json.undefined, Json.undefined⟩).body = false :=
  ⟨rfl, rfl⟩

/-- C5 amended: the single-shot methods `linkIntersect` and `linkStatus`
return a one-element array wrapped in the same record shape as multi-element
batches on success, even though only one upstream call occurs; the quota
lookup `getQuota` instead responds 200 with a bare quota object. -/
theorem singleShot_envelope (w : World) (apiKey params okey d : Json)
    (hk : apiKey.truthy = true) (hp : params.truthy = true) :
    (callMozApi (w.moz (linkIntersectCall params apiKey)) = Except.ok d →
      handler w ⟨"POST", apiKey, Json.str "linkIntersect", params, okey⟩ =
        ⟨200, Json.arr [successRecord d]⟩) ∧
    (callMozApi (w.moz (linkStatusCall params apiKey)) = Except.ok d →
      handler w ⟨"POST", apiKey, Json.str "linkStatus", params, okey⟩ =
        ⟨200, Json.arr [successRecord d]⟩) ∧
    (callMozApi (w.moz (quotaCall apiKey)) = Except.ok d →
      handler w ⟨"POST", apiKey, Json.str "getQuota", params, okey⟩ =
        ⟨200, Json.obj [("quota", d)]⟩) := by
  refine ⟨?_, ?_, ?_⟩ <;> intro h <;>
    simp [handler, handlerTry, methodIs, truthy_str, hk, hp, h]

theorem singleShot_envelope_witness :
    handler okWorld ⟨"POST", Json.str "k", Json.str "linkStatus", paramsLinkStatus, Json.undefined⟩ =
      ⟨200, Json.arr [successRecord (Json.num 1)]⟩ :=
  (singleShot_envelope okWorld (Json.str "k") paramsLinkStatus Json.undefined (Json.num 1)
    rfl rfl).2.1 rfl

/-- C6 counterexample: an upstream failure of the single `linkStatus` call
escalates to a 500 response, contradicting the claim that per-call upstream
failures never produce a non-200 response. -/
theorem singleShot_failure_500_counterexample :
    handler failWorld ⟨"POST", Json.str "k", Json.str "linkStatus", paramsLinkStatus, Json.undefined⟩ =
      ⟨500, errBody "An internal server error occurred."⟩ :=
  rfl

/-- C6 amended: per-call failures of the batched list-based methods never
escalate (the response status is 200 for every oracle); but a failing
upstream call of a single-shot method (`getQuota`, `linkIntersect`,
`linkStatus`) is thrown into the outer catch and escalates to a 500 whose
body carries only the generic message with no internal detail. -/
theorem failure_propagation :
    (∀ (m : String), m ∈ listMethods → ∀ (w : World) (apiKey params okey : Json) (l : List Json),
      apiKey.truthy = true → params.truthy = true →
      params.get (listParamName m) = Json.arr l →
      (handler w ⟨"POST", apiKey, Json.str m, params, okey⟩).status = 200) ∧
    (∀ (w : World) (apiKey params okey : Json) (msg : String),
      apiKey.truthy = true → params.truthy = true →
      callMozApi (w.moz (linkStatusCall params apiKey)) = Except.error msg →
      handler w ⟨"POST", apiKey, Json.str "linkStatus", params, okey⟩ =
        ⟨500, errBody "An internal server error occurred."⟩) ∧
    (∀ (w : World) (apiKey params okey : Json) (msg : String),
      apiKey.truthy = true → params.truthy = true →
      callMozApi (w.moz (linkIntersectCall params apiKey)) = Except.error msg →
      handler w ⟨"POST", apiKey, Json.str "linkIntersect", params, okey⟩ =
        ⟨500, errBody "An internal server error occurred."⟩) ∧
    (∀ (w : World) (apiKey params okey : Json) (msg : String),
      apiKey.truthy = true → params.truthy = true →
      callMozApi (w.moz (quotaCall apiKey)) = Except.error msg →
      handler w ⟨"POST", apiKey, Json.str "getQuota", params, okey⟩ =
        ⟨500, errBody "An internal server error occurred."⟩) := by
  refine ⟨?_, ?_, ?_, ?_⟩
  · intro m hm w apiKey params okey l hk hp hl
    rw [listBased_handler_eq m hm w apiKey params okey l hk hp hl]
  · intro w apiKey params okey msg hk hp h
    simp [handler, handlerTry, methodIs, genericError, truthy_str, hk, hp, h]
  · intro w apiKey params okey msg hk hp h
    simp [handler, handlerTry, methodIs, genericError, truthy_str, hk, hp, h]
  · intro w apiKey params okey msg hk hp h
    simp [handler, handlerTry, methodIs, genericError, truthy_str, hk, hp, h]

theorem failure_propagation_witness :
    (handler failWorld
      ⟨"POST", Json.str "k", Json.str "siteMetrics", paramsTwoTargets, Json.undefined⟩).status = 200 ∧
    handler failWorld ⟨"POST", Json.str "k", Json.str "linkStatus", paramsLinkStatus, Json.undefined⟩ =
      ⟨500, errBody "An internal server error occurred."⟩ :=
  ⟨failure_propagation.1 "siteMetrics" (by decide) failWorld (Json.str "k") paramsTwoTargets
     Json.undefined [Json.str "a.com", Json.str "b.com"] rfl rfl rfl,
   failure_propagation.2.1 failWorld (Json.str "k") paramsLinkStatus Json.undefined "boom" rfl rfl rfl⟩

/-- C7: a POST request with an absent `method` gets a 400; a recognized
method that requires `params` gets a 400 when `params` is absent; a method
string outside the closed table gets a 400 without any upstream call being
observable (the response does not depend on the environment). -/
theorem request_validation :
    (∀ (w : World) (apiKey params okey : Json),
      handler w ⟨"POST", apiKey, Json.undefined, params, okey⟩ =
        ⟨400, errBody "Missing API Key or method."⟩) ∧
    (∀ m, m ∈ paramsRequired → ∀ (w : World) (apiKey okey : Json),
      (handler w ⟨"POST", apiKey, Json.str m, Json.undefined, okey⟩).status = 400) ∧
    (∀ method : Json, recognizedNames.all (fun s => !(methodIs method s)) = true →
      ∀ (w w' : World) (apiKey params okey : Json),
        (handler w ⟨"POST", apiKey, method, params, okey⟩).status = 400 ∧
        handler w ⟨"POST", apiKey, method, params, okey⟩ =
          handler w' ⟨"POST", apiKey, method, params, okey⟩) := by
  refine ⟨?_, ?_, ?_⟩
  · intro w apiKey params okey
    simp [handler, methodIs, truthy_undefined]
  · intro m hm w apiKey okey
    fin_cases hm <;>
      by_cases hA : apiKey.truthy = true <;>
      by_cases hO : okey.truthy = true <;>
        simp [handler, handlerTry, methodIs, truthy_undefined, truthy_str, hA, hO]
  · intro method hall w w' apiKey params okey
    have hs : ∀ s ∈ recognizedNames, methodIs method s = false := by
      intro s hsmem
      have hx := List.all_eq_true.mp hall s hsmem
      simpa using hx
    have h1 := hs "extractContent" (by decide)
    have h2 := hs "getEmbeddings" (by decide)
    have h3 := hs "analyzeWithOpenAI" (by decide)
    have h4 := hs "getQuota" (by decide)
    have h5 := hs "linkIntersect" (by decide)
    have h6 := hs "linkStatus" (by decide)
    have h7 := hs "filterLinksByDomain" (by decide)
    have h8 := hs "siteMetrics" (by decide)
    have h9 := hs "keywordMetrics" (by decide)
    have h10 := hs "brandAuthority" (by decide)
    have h11 := hs "searchIntent" (by decide)
    have h12 := hs "rankingKeywords" (by decide)
    have h13 := hs "relatedKeywords" (by decide)
    have h14 := hs "keywordCount" (by decide)
    have h15 := hs "anchorText" (by decide)
    have h16 := hs "recentlyGainedLinks" (by decide)
    have h17 := hs "recentlyLostLinks" (by decide)
    have h18 := hs "linkingDomains" (by decide)
    have h19 := hs "finalRedirect" (by decide)
    have h20 := hs "topPages" (by decide)
    have h21 := hs "listLinks" (by decide)
    have h22 := hs "filterLinksByAnchor" (by decide)
    by_cases hA : apiKey.truthy = true <;>
      by_cases hM : method.truthy = true <;>
      by_cases hP : params.truthy = true <;>
        simp [handler, handlerTry, mozSwitch, hA, hM, hP, h1, h2, h3, h4, h5, h6, h7, h8,
          h9, h10, h11, h12, h13, h14, h15, h16, h17, h18, h19, h20, h21, h22]

theorem request_validation_witness :
    handler okWorld ⟨"POST", Json.str "k", Json.undefined, Json.undefined, Json.undefined⟩ =
      ⟨400, errBody "Missing API Key or method."⟩ ∧
    (handler okWorld ⟨"POST", Json.str "k", Json.str "siteMetrics", Json.undefined, Json.undefined⟩).status = 400 ∧
    (handler okWorld ⟨"POST", Json.str "k", Json.str "bogusMethod", Json.obj [], Json.undefined⟩).status = 400 :=
  ⟨request_validation.1 okWorld (Json.str "k") Json.undefined Json.undefined,
   request_validation.2.1 "siteMetrics" (by decide) okWorld (Json.str "k") Json.undefined,
   (request_validation.2.2 (Json.str "bogusMethod") rfl okWorld okWorld (Json.str "k")
     (Json.obj []) Json.undefined).1⟩

theorem allStrs_map (strs : List String) : allStrs (strs.map Json.str) = some strs := by
  induction strs with
  | nil => rfl
  | cons s rest ih => simp [allStrs, ih]

/-- C8: for `brandAuthority`, the query embedded in each upstream payload is
the target unchanged when it already starts with `http`, and `https://`
prepended to it otherwise — a pure function of the single target value. -/
theorem brandAuthority_normalizes (w : World) (apiKey params okey : Json) (strs : List String)
    (hk : apiKey.truthy = true) (hp : params.truthy = true)
    (hl : params.get "targets" = Json.arr (strs.map Json.str)) :
    handler w ⟨"POST", apiKey, Json.str "brandAuthority", params, okey⟩ =
      ⟨200, Json.arr (strs.map (fun s => settle w.moz
        ⟨"data.site.metrics.brand.authority.fetch",
         Json.obj [("data", Json.obj [("site_query", Json.obj
           [("query", Json.str (if strStartsWith s "http" then s else "https://" ++ s)),
            ("scope", Json.str "domain")])])], apiKey⟩))⟩ := by
  simp [handler, handlerTry, mozSwitch, methodIs, truthy_str, hk, hp, hl, allStrs_map,
    brandAuthorityCall, brandQuery, Function.comp]

theorem brandAuthority_normalizes_witness :
    handler echoWorld ⟨"POST", Json.str "k", Json.str "brandAuthority", paramsBrand, Json.undefined⟩ =
      ⟨200, Json.arr [successRecord (Json.str "https://example.com"),
                      successRecord (Json.str "http://x.y")]⟩ :=
  (brandAuthority_normalizes echoWorld (Json.str "k") paramsBrand Json.undefined
    ["example.com", "http://x.y"] rfl rfl rfl).trans (by rfl)

theorem flatMap_product_length {α β γ : Type} (g : α → β → γ) (ss : List β) (ts : List α) :
    (ts.flatMap (fun t => ss.map (g t))).length = ts.length * ss.length := by
  induction ts with
  | nil => simp
  | cons t rest ih => simp [ih, Nat.succ_mul, Nat.add_comm]

theorem flatMap_product_get {α β γ : Type} (g : α → β → γ) (ss : List β) (ts : List α)
    (i j : Nat) (hi : i < ts.length) (hj : j < ss.length)
    (hidx : i * ss.length + j < (ts.flatMap (fun t => ss.map (g t))).length) :
    (ts.flatMap (fun t => ss.map (g t))).get ⟨i * ss.length + j, hidx⟩ =
      g (ts.get ⟨i, hi⟩) (ss.get ⟨j, hj⟩) := by
  induction ts generalizing i with
  | nil => exact absurd hi (by simp)
  | cons t rest ih =>
    cases i with
    | zero =>
      simp only [List.flatMap_cons, List.get_eq_getElem, Nat.zero_mul, Nat.zero_add] at hidx ⊢
      rw [List.getElem_append_left (by simpa using hj)]
      simp
    | succ i' =>
      have hi' : i' < rest.length := by simpa using hi
      have hsz : (ss.map (g t)).length ≤ (i' + 1) * ss.length + j := by
        simp only [List.length_map, Nat.succ_mul]
        omega
      simp only [List.flatMap_cons, List.get_eq_getElem]
      rw [List.getElem_append_right hsz]
      have hidx' : (i' + 1) * ss.length + j - (ss.map (g t)).length = i' * ss.length + j := by
        simp only [List.length_map, Nat.succ_mul]
        omega
      have hlt : i' * ss.length + j < (rest.flatMap (fun t => ss.map (g t))).length := by
        rw [flatMap_product_length]
        calc i' * ss.length + j < i' * ss.length + ss.length := by omega
        _ = (i' + 1) * ss.length := by rw [Nat.succ_mul]
        _ ≤ rest.length * ss.length := Nat.mul_le_mul_right _ hi'
      have := ih i' hi' (by simpa [hidx'] using hlt)
      simp only [List.get_eq_getElem] at this
      simp only [hidx']
      rw [this]
      simp

/-- C9: a `filterLinksByDomain` request with m target queries and n source
queries issues one upstream call per (target, source) pair and responds 200
with exactly m times n outcome records, ordered target-major: the record at
position i times n plus j is the settled outcome of the call built from
target i and source j. -/
theorem filterLinksByDomain_product (w : World) (apiKey params okey : Json)
    (ts ss : List Json)
    (hk : apiKey.truthy = true) (hp : params.truthy = true)
    (ht : params.get "targetQueries" = Json.arr ts)
    (hs : params.get "sourceQueries" = Json.arr ss) :
    handler w ⟨"POST", apiKey, Json.str "filterLinksByDomain", params, okey⟩ =
      ⟨200, Json.arr (ts.flatMap (fun t => ss.map (fun s =>
        settle w.moz (filterDomainCall params apiKey t s))))⟩ ∧
    (ts.flatMap (fun t => ss.map (fun s =>
      settle w.moz (filterDomainCall params apiKey t s)))).length = ts.length * ss.length ∧
    (∀ (i j : Nat) (hi : i < ts.length) (hj : j < ss.length)
      (hidx : i * ss.length + j < (ts.flatMap (fun t => ss.map (fun s =>
        settle w.moz (filterDomainCall params apiKey t s)))).length),
      (ts.flatMap (fun t => ss.map (fun s =>
        settle w.moz (filterDomainCall params apiKey t s)))).get ⟨i * ss.length + j, hidx⟩ =
        settle w.moz (filterDomainCall params apiKey (ts.get ⟨i, hi⟩) (ss.get ⟨j, hj⟩))) := by
  refine ⟨?_, flatMap_product_length _ _ _, ?_⟩
  · rcases ts with _ | ⟨t0, ts'⟩ <;>
      simp [handler, handlerTry, methodIs, truthy_str, hk, hp, ht, hs]
  · intro i j hi hj hidx
    exact flatMap_product_get (fun t s => settle w.moz (filterDomainCall params apiKey t s))
      ss ts i j hi hj hidx

theorem filterLinksByDomain_product_witness :
    handler okWorld ⟨"POST", Json.str "k", Json.str "filterLinksByDomain", paramsFilterDomain, Json.undefined⟩ =
      ⟨200, Json.arr [successRecord (Json.num 1), successRecord (Json.num 1)]⟩ :=
  ((filterLinksByDomain_product okWorld (Json.str "k") paramsFilterDomain Json.undefined
    [Json.str "t1", Json.str "t2"] [Json.str "s1"] rfl rfl rfl rfl).1).trans (by rfl)

/-- C10: a successful `extractContent` request responds 200 with
a content object whose field s is the fetched page text cleaned by the pipeline
(script, style and noscript blocks removed, tags replaced by spaces, common
entities substituted, whitespace collapsed and trimmed) and s has at most
8000 characters. -/
theorem extractContent_cleans (w : World) (apiKey params okey : Json)
    (status : Nat) (statusText html : String)
    (hp : params.truthy = true) (hu : (params.get "url").truthy = true)
    (hw : w.page (params.get "url") = .resp true status statusText html) :
    handler w ⟨"POST", apiKey, Json.str "extractContent", params, okey⟩ =
      ⟨200, Json.obj [("content", Json.str (extractText html))]⟩ ∧
    (extractText html).length ≤ 8000 := by
  constructor
  · simp [handler, handlerTry, methodIs, truthy_str, hp, hu, hw]
  · show (List.take 8000 (trimWs (collapseWs (entitySteps (removeTags (removeBlock "noscript"
      (removeBlock "style" (removeBlock "script" html.data)))))))).length ≤ 8000
    simp [List.length_take]

theorem extractContent_cleans_witness :
    handler (pageWorld sampleHtml)
      ⟨"POST", Json.undefined, Json.str "extractContent", paramsUrl, Json.undefined⟩ =
      ⟨200, Json.obj [("content", Json.str "Hi & low deal done")]⟩ ∧
    (extractText sampleHtml).length ≤ 8000 := by
  have h := extractContent_cleans (pageWorld sampleHtml) Json.undefined paramsUrl Json.undefined
    200 "OK" sampleHtml rfl rfl rfl
  exact ⟨h.1.trans (by rfl), h.2⟩

end MozProxy
